import Mathlib

/-!
Shallow embedding of `src/crypto/traits.rs` of the `fez` repository: trait
abstractions for pluggable cryptographic signing and verification.

Rust traits are embedded as explicit dictionary structures; a trait impl
becomes a Lean definition producing such a dictionary.  A shared reference
`&T` is embedded as a one-field wrapper `Ref T`; `PhantomData<A>` as a
one-field-free structure parameterised by the algorithm marker.  A Rust
method call either returns `Ok`, returns `Err`, or panics (the
`unreachable!` macro); the three outcomes are the three constructors of
`Outcome`.  Byte slices `&[u8]` and `Vec<u8>` are `List Nat` (each entry a
byte value; no arithmetic is ever performed on bytes in this module, so no
wrap-around modelling is needed).
-/

namespace FezCrypto

/-- Byte sequences: `&[u8]` / `Vec<u8>` from the source. -/
abbrev Bytes := List Nat

/-- The `std::fmt::Debug` bound that the source places on markers and
implementers: the type can be rendered for diagnostics. -/
structure Debug (T : Type) where
  fmt : T → String

/-- Modelled from the spec: the error type `RPMError` comes from
`src/errors.rs`, which is not part of the given sources; the spec defines
exactly the two error conditions relevant at this layer, a signing failure
and a verification failure, each surfaced with a descriptive message. -/
inductive RPMError : Type where
  | signingFailed (msg : String)
  | verificationFailed (msg : String)

/-- Outcome of one Rust method call: a returned `Ok` value, a returned
`Err` value, or a panic (`unreachable!`) that aborts with a message and
never returns to the caller. -/
inductive Outcome (α : Type) : Type where
  | ok (a : α)
  | err (e : RPMError)
  | panic (msg : String)

/-- The `algorithm::Algorithm` marker trait: no methods, only the `Debug`
supertrait bound. -/
structure Algorithm (A : Type) where
  debug : Debug A

/-- The `algorithm::RSA` unit struct (`pub struct RSA;`). -/
structure RSA : Type where

/-- The derived `Debug` impl for `RSA` (from `#[derive(Debug, Clone, Copy)]`). -/
def RSA.debugImpl : Debug RSA :=
  ⟨fun _ => "RSA"⟩

/-- The source's `impl Algorithm for RSA {}`. -/
def RSA.algorithmImpl : Algorithm RSA :=
  ⟨RSA.debugImpl⟩

/-- The `Signing<A>` trait: dictionary carrying the `A: Algorithm` bound,
the `Self: Debug` supertrait bound, the associated type `Signature`, the
`Self::Signature: AsRef<[u8]>` bound (a byte view of every signature
value), and the method `fn sign(&self, data: &[u8]) -> Result<Self::Signature, RPMError>`. -/
structure Signing (A T : Type) : Type 1 where
  algorithmBound : Algorithm A
  debugBound : Debug T
  Signature : Type
  signatureAsRef : Signature → Bytes
  sign : T → Bytes → Outcome Signature

/-- The `Verifying<A>` trait: same bounds and associated type as
`Signing<A>`, and the method
`fn verify(&self, data: &[u8], signature: &[u8]) -> Result<(), RPMError>`;
the signature parameter is a raw byte slice, not `Self::Signature`. -/
structure Verifying (A T : Type) : Type 1 where
  algorithmBound : Algorithm A
  debugBound : Debug T
  Signature : Type
  signatureAsRef : Signature → Bytes
  verify : T → Bytes → Bytes → Outcome Unit

/-- A Rust shared reference `&T`, embedded as a wrapper around the value
it points to. -/
structure Ref (T : Type) where
  deref : T

/-- The source's `impl<A,T,S> Signing<A> for &T`: `Signature` is the
underlying `S` and `sign` forwards as `T::sign(self, data)`. -/
def Signing.refImpl {A T : Type} (inst : Signing A T) : Signing A (Ref T) where
  algorithmBound := inst.algorithmBound
  debugBound := ⟨fun r => inst.debugBound.fmt r.deref⟩
  Signature := inst.Signature
  signatureAsRef := inst.signatureAsRef
  sign := fun self data => inst.sign self.deref data

/-- The source's `impl<A,T,S> Verifying<A> for &T`: forwards as
`T::verify(self, data, signature)`. -/
def Verifying.refImpl {A T : Type} (inst : Verifying A T) : Verifying A (Ref T) where
  algorithmBound := inst.algorithmBound
  debugBound := ⟨fun r => inst.debugBound.fmt r.deref⟩
  Signature := inst.Signature
  signatureAsRef := inst.signatureAsRef
  verify := fun self data signature => inst.verify self.deref data signature

/-- `std::marker::PhantomData<A>`: a data-less unit struct parameterised
by the algorithm marker, the deliberate absent-capability stand-in. -/
structure PhantomData (A : Type) : Type where

/-- The source's `impl<A> Signing<A> for PhantomData<A>`: `Signature` is
fixed to `Vec<u8>` and `sign` is `unreachable!` with the source's exact
message. -/
def Signing.phantomImpl {A : Type} (ha : Algorithm A) : Signing A (PhantomData A) where
  algorithmBound := ha
  debugBound := ⟨fun _ => "PhantomData"⟩
  Signature := Bytes
  signatureAsRef := fun v => v
  sign := fun _ _ =>
    Outcome.panic "if you want to verify, you need to implement `sign` of the `Signing` trait"

/-- The source's `impl<A> Verifying<A> for PhantomData<A>`: `Signature` is
fixed to `Vec<u8>` and `verify` is `unreachable!` with the source's exact
message. -/
def Verifying.phantomImpl {A : Type} (ha : Algorithm A) : Verifying A (PhantomData A) where
  algorithmBound := ha
  debugBound := ⟨fun _ => "PhantomData"⟩
  Signature := Bytes
  signatureAsRef := fun v => v
  verify := fun _ _ _ =>
    Outcome.panic "if you want to verify, you need to implement `verify` of the `Verifying` trait"

/-- The `key::KeyType` marker trait: `Debug + Copy` supertraits.  Rust's
`Copy` means duplicating the value is a trivial bitwise copy; it is
embedded as a duplication function together with the law that it returns
the value unchanged. -/
structure KeyType (K : Type) where
  debug : Debug K
  copy : K → K
  copy_eq : ∀ k, copy k = k

/-- The `key::Secret` unit struct. -/
structure Secret : Type where

/-- The `key::Public` unit struct. -/
structure Public : Type where

/-- The derived `Debug` impl for `Secret`. -/
def Secret.debugImpl : Debug Secret :=
  ⟨fun _ => "Secret"⟩

/-- The derived `Debug` impl for `Public`. -/
def Public.debugImpl : Debug Public :=
  ⟨fun _ => "Public"⟩

/-- The source's `impl KeyType for Secret {}`. -/
def Secret.keyTypeImpl : KeyType Secret :=
  ⟨Secret.debugImpl, fun k => k, fun _ => rfl⟩

/-- The source's `impl KeyType for Public {}`. -/
def Public.keyTypeImpl : KeyType Public :=
  ⟨Public.debugImpl, fun k => k, fun _ => rfl⟩

/-- State-passing reading of the receiver mode of
`fn sign(&self, data: &[u8])`: a call through a shared borrow yields the
result together with the receiver handed back to the caller, which for a
shared borrow is the receiver unchanged. -/
def Signing.signCall {A T : Type} (inst : Signing A T) (t : T) (data : Bytes) :
    Outcome inst.Signature × T :=
  (inst.sign t data, t)

/-- State-passing reading of the receiver mode of
`fn verify(&self, data: &[u8], signature: &[u8])`: the receiver comes back
unchanged from the shared borrow. -/
def Verifying.verifyCall {A T : Type} (inst : Verifying A T) (t : T) (data signature : Bytes) :
    Outcome Unit × T :=
  (inst.verify t data signature, t)

/-- A concrete sample implementer of `Signing RSA` over a unit carrier,
used only as an input value to exercise the trait contract: it signs by
echoing the payload. -/
def sampleSigner : Signing RSA Unit where
  algorithmBound := RSA.algorithmImpl
  debugBound := ⟨fun _ => "sampleSigner"⟩
  Signature := Bytes
  signatureAsRef := fun v => v
  sign := fun _ data => Outcome.ok data

/-- A concrete sample implementer of `Verifying RSA` over a unit carrier,
used only as an input value to exercise the trait contract: it accepts a
signature exactly when it equals the payload. -/
def sampleVerifier : Verifying RSA Unit where
  algorithmBound := RSA.algorithmImpl
  debugBound := ⟨fun _ => "sampleVerifier"⟩
  Signature := Bytes
  signatureAsRef := fun v => v
  verify := fun _ data signature =>
    if data = signature then Outcome.ok () else
      Outcome.err (RPMError.verificationFailed "sample mismatch")

/-- C1: for every algorithm marker `A` and every input, `sign` and
`verify` on the absent-capability stand-in `PhantomData A` never return a
value — neither `Ok` nor `Err` — but abort at once with a diagnostic that
names the missing capability (`Signing` resp. `Verifying`). -/
theorem phantom_sign_verify_abort (A : Type) (ha : Algorithm A)
    (pd : PhantomData A) (data signature : Bytes) :
    ((Signing.phantomImpl ha).sign pd data =
        Outcome.panic "if you want to verify, you need to implement `sign` of the `Signing` trait"
      ∧ (∀ s, (Signing.phantomImpl ha).sign pd data ≠ Outcome.ok s)
      ∧ (∀ e, (Signing.phantomImpl ha).sign pd data ≠ Outcome.err e)
      ∧ ∃ pre post : String,
          "if you want to verify, you need to implement `sign` of the `Signing` trait" =
            pre ++ "Signing" ++ post)
    ∧ ((Verifying.phantomImpl ha).verify pd data signature =
        Outcome.panic "if you want to verify, you need to implement `verify` of the `Verifying` trait"
      ∧ (∀ u, (Verifying.phantomImpl ha).verify pd data signature ≠ Outcome.ok u)
      ∧ (∀ e, (Verifying.phantomImpl ha).verify pd data signature ≠ Outcome.err e)
      ∧ ∃ pre post : String,
          "if you want to verify, you need to implement `verify` of the `Verifying` trait" =
            pre ++ "Verifying" ++ post) := by
  refine ⟨⟨rfl, ?_, ?_, ?_⟩, rfl, ?_, ?_, ?_⟩
  · intro s h; exact Outcome.noConfusion h
  · intro e h; exact Outcome.noConfusion h
  · exact ⟨"if you want to verify, you need to implement `sign` of the `", "` trait", by decide⟩
  · intro u h; exact Outcome.noConfusion h
  · intro e h; exact Outcome.noConfusion h
  · exact ⟨"if you want to verify, you need to implement `verify` of the `", "` trait", by decide⟩

/-- Witness for C1 at the concrete marker `RSA` and empty inputs. -/
theorem phantom_sign_verify_abort_witness :
    (Signing.phantomImpl RSA.algorithmImpl).sign ⟨⟩ [] =
        Outcome.panic "if you want to verify, you need to implement `sign` of the `Signing` trait"
      ∧ (Verifying.phantomImpl RSA.algorithmImpl).verify ⟨⟩ [] [] =
        Outcome.panic "if you want to verify, you need to implement `verify` of the `Verifying` trait" :=
  ⟨(phantom_sign_verify_abort RSA RSA.algorithmImpl ⟨⟩ [] []).1.1,
    (phantom_sign_verify_abort RSA RSA.algorithmImpl ⟨⟩ [] []).2.1⟩

/-- C2: for every algorithm marker `A`, every implementer `T` of
`Signing A`, and every input, signing through a shared reference gives
exactly the same result as signing the underlying value directly, and the
associated `Signature` type is unchanged by the delegation. -/
theorem ref_sign_delegates (A T : Type) (inst : Signing A T) (t : T) (data : Bytes) :
    inst.refImpl.sign ⟨t⟩ data = inst.sign t data
      ∧ inst.refImpl.Signature = inst.Signature :=
  ⟨rfl, rfl⟩

/-- C3: for every algorithm marker `A`, every implementer `T` of
`Verifying A`, and every pair of inputs, verifying through a shared
reference gives exactly the same result as verifying on the underlying
value directly. -/
theorem ref_verify_delegates (A T : Type) (inst : Verifying A T) (t : T)
    (data signature : Bytes) :
    inst.refImpl.verify ⟨t⟩ data signature = inst.verify t data signature
      ∧ inst.refImpl.Signature = inst.Signature :=
  ⟨rfl, rfl⟩

/-- C4: the single generic stand-in `PhantomData A` implements both the
`Signing A` and the `Verifying A` capability for every algorithm marker
`A`, so a signer-less or verifier-less configuration is well-typed for any
algorithm. -/
theorem phantom_implements_both (A : Type) (ha : Algorithm A) :
    Nonempty (Signing A (PhantomData A)) ∧ Nonempty (Verifying A (PhantomData A)) :=
  ⟨⟨Signing.phantomImpl ha⟩, ⟨Verifying.phantomImpl ha⟩⟩

/-- C5: for every implementer of `Signing A`, every signature value that
`sign` successfully returns can be viewed as a byte sequence, through the
`AsRef` view the trait bound carries. -/
theorem sign_output_byte_viewable (A T : Type) (inst : Signing A T) (t : T)
    (data : Bytes) (s : inst.Signature) (h : inst.sign t data = Outcome.ok s) :
    ∃ bs : Bytes, inst.signatureAsRef s = bs :=
  ⟨inst.signatureAsRef s, rfl⟩

/-- Witness for C5: the sample signer returns `Ok [1, 2]` on payload
`[1, 2]`, and that signature value has a byte view. -/
theorem sign_output_byte_viewable_witness :
    sampleSigner.sign () [1, 2] = Outcome.ok [1, 2]
      ∧ ∃ bs : Bytes, sampleSigner.signatureAsRef [1, 2] = bs :=
  ⟨rfl, sign_output_byte_viewable RSA Unit sampleSigner () [1, 2] [1, 2] rfl⟩

/-- C6: `verify` takes the payload and a raw signature byte sequence (its
type is `T → Bytes → Bytes → Outcome Unit`, independent of the
implementer's structured `Signature` type); on success it carries exactly
the unit value, and otherwise the call yields an error or a panic — the
single error channel does not separate invalid signatures from unusable
signature bytes. -/
theorem verify_raw_bytes_unit (A T : Type) (inst : Verifying A T) (t : T)
    (data signature : Bytes) :
    (∃ f : T → Bytes → Bytes → Outcome Unit, f = inst.verify)
      ∧ (∀ u, inst.verify t data signature = Outcome.ok u → u = ())
      ∧ (inst.verify t data signature = Outcome.ok ()
          ∨ (∃ e, inst.verify t data signature = Outcome.err e)
          ∨ (∃ m, inst.verify t data signature = Outcome.panic m)) := by
  refine ⟨⟨inst.verify, rfl⟩, fun u _ => rfl, ?_⟩
  cases inst.verify t data signature with
  | ok u => exact Or.inl (by cases u; rfl)
  | err e => exact Or.inr (Or.inl ⟨e, rfl⟩)
  | panic m => exact Or.inr (Or.inr ⟨m, rfl⟩)

/-- Witness for C6: the sample verifier at concrete inputs lands in one of
the three outcome shapes, with unit on success. -/
theorem verify_raw_bytes_unit_witness :
    (∀ u, sampleVerifier.verify () [3] [3] = Outcome.ok u → u = ())
      ∧ (sampleVerifier.verify () [3] [3] = Outcome.ok ()
          ∨ (∃ e, sampleVerifier.verify () [3] [3] = Outcome.err e)
          ∨ (∃ m, sampleVerifier.verify () [3] [3] = Outcome.panic m)) :=
  ⟨(verify_raw_bytes_unit RSA Unit sampleVerifier () [3] [3]).2.1,
    (verify_raw_bytes_unit RSA Unit sampleVerifier () [3] [3]).2.2⟩

/-- C7: the concrete algorithm marker `RSA` is a data-less unit type with
exactly one value, and it satisfies the shared `Algorithm` marker
capability. -/
theorem rsa_unit_algorithm_marker :
    Nonempty RSA ∧ (∀ x y : RSA, x = y) ∧ Nonempty (Algorithm RSA) :=
  ⟨⟨⟨⟩⟩, fun x y => by cases x; cases y; rfl, ⟨RSA.algorithmImpl⟩⟩

/-- C8: `Secret` and `Public` are data-less unit types, each
debug-printable and trivially copyable under the shared `KeyType`
capability, while the `Signing` and `Verifying` trait families are indexed
by exactly an algorithm type and an implementer type — no key-role
parameter appears. -/
theorem key_role_markers_and_no_role_parameter :
    (∀ x y : Secret, x = y) ∧ (∀ x y : Public, x = y)
      ∧ Nonempty (KeyType Secret) ∧ Nonempty (KeyType Public)
      ∧ Secret.keyTypeImpl.copy ⟨⟩ = ⟨⟩
      ∧ Public.keyTypeImpl.copy ⟨⟩ = ⟨⟩
      ∧ Secret.keyTypeImpl.debug.fmt ⟨⟩ = "Secret"
      ∧ Public.keyTypeImpl.debug.fmt ⟨⟩ = "Public"
      ∧ (∃ F : Type → Type → Type 1, F = Signing)
      ∧ (∃ F : Type → Type → Type 1, F = Verifying) :=
  ⟨fun x y => by cases x; cases y; rfl, fun x y => by cases x; cases y; rfl,
    ⟨Secret.keyTypeImpl⟩, ⟨Public.keyTypeImpl⟩, rfl, rfl, rfl, rfl,
    ⟨Signing, rfl⟩, ⟨Verifying, rfl⟩⟩

/-- C9: for every algorithm marker `A`, both stand-in implementations fix
the associated `Signature` type to `Vec<u8>` (here `Bytes`), and the byte
view on that type is the identity, so the byte-viewability bound holds
even though the stand-in never produces a signature. -/
theorem phantom_signature_is_byte_vector (A : Type) (ha : Algorithm A) :
    (Signing.phantomImpl ha).Signature = Bytes
      ∧ (Verifying.phantomImpl ha).Signature = Bytes
      ∧ (∀ s : Bytes, (Signing.phantomImpl ha).signatureAsRef s = s)
      ∧ (∀ s : Bytes, (Verifying.phantomImpl ha).signatureAsRef s = s) :=
  ⟨rfl, rfl, fun _ => rfl, fun _ => rfl⟩

/-- C10: both operations receive the implementer by shared borrow: in the
state-passing reading of the call, the receiver comes back unchanged, and
a second call on the returned receiver behaves exactly like the first —
the value stays usable for arbitrarily many further calls. -/
theorem shared_borrow_leaves_receiver_unchanged (A T : Type)
    (instS : Signing A T) (instV : Verifying A T) (t : T) (data signature : Bytes) :
    (instS.signCall t data).2 = t
      ∧ (instV.verifyCall t data signature).2 = t
      ∧ (instS.signCall (instS.signCall t data).2 data).1 = (instS.signCall t data).1
      ∧ (instV.verifyCall (instV.verifyCall t data signature).2 data signature).1 =
          (instV.verifyCall t data signature).1 :=
  ⟨rfl, rfl, rfl, rfl⟩

end FezCrypto
